import Mathlib

/-!
Verification of the Fluegelschlag-Ersatzhaus birdhouse CAD scripts.

The repository has three Python files:
  * `constants.py`   — six numeric constants;
  * `connectors.py`  — `distribute_connectors(length, start)`, which builds a
    row of rectangular connector solids along an edge;
  * `birdhouse.py`   — a linear script building the panels, exporting DXF
    files and showing the parts in a viewer.

We shallowly embed the numeric computations over `ℚ` (Python floats here are
only ever divided by the power of two `2 * WALLTHICKNESS = 8.0`, which is an
exact operation on binary floats, so the rational idealisation is faithful on
everything the claims touch), the connector solids as explicit rectangular
prisms, the CAD expressions of `birdhouse.py` as a syntax tree with a
set-of-points semantics, and the script's effect order as an event trace.
-/

namespace Birdhouse

/-! ### constants.py -/

/-- `WALLTHICKNESS = 4.0` from constants.py. -/
def WALLTHICKNESS : ℚ := 4

/-- `BIRDHOUSE_WIDTH = 60.0` from constants.py. -/
def BIRDHOUSE_WIDTH : ℚ := 60

/-- `BIRDHOUSE_DEPTH = 60.0` from constants.py. -/
def BIRDHOUSE_DEPTH : ℚ := 60

/-- `BIRDHOUSE_HEIGHT = 160.0` from constants.py. -/
def BIRDHOUSE_HEIGHT : ℚ := 160

/-- `BIRDHOUSE_SPACE_TOP = 40.0` from constants.py. -/
def BIRDHOUSE_SPACE_TOP : ℚ := 40

/-- `BIRDHOUSE_SPACE_BOTTOM = 35.0` from constants.py. -/
def BIRDHOUSE_SPACE_BOTTOM : ℚ := 35

/-- Names bound at module level in constants.py (its complete set of
assignments, lines 4-11). -/
def constantsDefinedNames : List String :=
  ["WALLTHICKNESS", "BIRDHOUSE_WIDTH", "BIRDHOUSE_DEPTH", "BIRDHOUSE_HEIGHT",
   "BIRDHOUSE_SPACE_TOP", "BIRDHOUSE_SPACE_BOTTOM"]

/-- The names birdhouse.py imports from the constants module
(`from constants import (...)`, birdhouse.py lines 34-49). -/
def birdhouseImportedNames : List String :=
  ["WALLTHICKNESS", "BIRDHOUSE_WIDTH", "BIRDHOUSE_DEPTH",
   "BIRDHOUSE_WIDTH_INNER", "BIRDHOUSE_SPACE_BOTTOM", "SLIDE_LENGTH_MID",
   "SLIDE_LENGTH_TOP", "SLIDE_LENGTH_BOTTOM", "SLIDE_ANGLE",
   "FRONT_PLATE_HEIGHT_SIDE", "FRONT_PLATE_HEIGHT_MIDDLE",
   "BACK_PLATE_HEIGHT", "SIDE_PLATE_HEIGHT", "ROOF_LENGTH"]

/-! ### connectors.py -/

/-- Python's `int()` conversion on a real number: truncation toward zero.
For `q ≥ 0` this is the floor, for `q < 0` it is the ceiling. -/
def pyTrunc (q : ℚ) : ℤ := if q < 0 then -⌊-q⌋ else ⌊q⌋

/-- An axis-aligned rectangular prism produced by
`moveTo(cx, cy).rect(w, h).extrude(d)` on a CadQuery workplane: the sketch
rectangle is centred at `(cx, cy)` with width `w` and height `h`, and is
extruded by `d` normal to the plane. -/
structure Prism where
  cx : ℚ
  cy : ℚ
  w : ℚ
  h : ℚ
  d : ℚ
deriving DecidableEq, Repr

/-- One connector solid of general wall thickness `W` at sketch centre
`(0, y)`: `rect(W * 2, W).extrude(W)` from connectors.py lines 64-67. -/
def connectorPieceGen (W y : ℚ) : Prism := ⟨0, y, W * 2, W, W⟩

/-- One connector solid with the wall thickness of constants.py. -/
def connectorPiece (y : ℚ) : Prism := connectorPieceGen WALLTHICKNESS y

/-- Shift a prism along the sketch y axis (the placement axis of
`distribute_connectors`). -/
def Prism.shiftY (p : Prism) (dy : ℚ) : Prism :=
  { p with cy := p.cy + dy }

/-- `distribute_connectors(length, start)` from connectors.py, with the
`WALLTHICKNESS = 4.0` of constants.py.  A returned workplane is modelled as
the list of solids it unions (`[]` is the empty `cq.Workplane("front")`):
`count = int(length / (WALLTHICKNESS * 2))`; `range(count)` is empty when
`count ≤ 0` (`Int.toNat` clamps at zero exactly as `range` does); piece `i`
is centred at `y = WALLTHICKNESS * (i * 2 + start) + WALLTHICKNESS / 2`;
when the piece list is empty the function returns the empty workplane. -/
def distribute_connectors (length : ℚ) (start : ℤ) : List Prism :=
  let count : ℤ := pyTrunc (length / (WALLTHICKNESS * 2))
  let pieces : List Prism :=
    (List.range count.toNat).map fun (i : ℕ) =>
      connectorPiece (WALLTHICKNESS * (((i : ℤ) * 2 + start : ℤ) : ℚ)
        + WALLTHICKNESS / 2)
  if pieces.isEmpty then [] else pieces

/-- `distribute_connectors` with the wall thickness as a parameter, under
Python float semantics: when `WALLTHICKNESS * 2 == 0` the division
`length / (WALLTHICKNESS * 2)` raises `ZeroDivisionError`, modelled as
`Except.error`; otherwise the body runs as in `distribute_connectors`. -/
def distribute_connectors_gen (W length : ℚ) (start : ℤ) :
    Except String (List Prism) :=
  if W * 2 = 0 then Except.error "ZeroDivisionError"
  else
    let count : ℤ := pyTrunc (length / (W * 2))
    let pieces : List Prism :=
      (List.range count.toNat).map fun (i : ℕ) =>
        connectorPieceGen W ((W * (((i : ℤ) * 2 + start : ℤ) : ℚ)) + W / 2)
    if pieces.isEmpty then Except.ok [] else Except.ok pieces

/-! ### birdhouse.py: CAD expressions

birdhouse.py also imports ten names that constants.py does not define
(see `birdhouseImportedNames`); for the geometry claims we take those
missing numeric constants as parameters, gathered in `MissingConsts`. -/

/-- The ten constants birdhouse.py imports that constants.py does not
define; they are left as parameters of the embedding. -/
structure MissingConsts where
  BIRDHOUSE_WIDTH_INNER : ℚ
  SLIDE_LENGTH_MID : ℚ
  SLIDE_LENGTH_TOP : ℚ
  SLIDE_LENGTH_BOTTOM : ℚ
  SLIDE_ANGLE : ℚ
  FRONT_PLATE_HEIGHT_SIDE : ℚ
  FRONT_PLATE_HEIGHT_MIDDLE : ℚ
  BACK_PLATE_HEIGHT : ℚ
  SIDE_PLATE_HEIGHT : ℚ
  ROOF_LENGTH : ℚ

/-- A point of 3-space. -/
abbrev Point : Type := ℚ × ℚ × ℚ

/-- Syntax of the CadQuery solid expressions built by birdhouse.py.
`sketch` names a 2D-profile-plus-extrude primitive (polygon or rectangle
sketches whose inner structure no claim inspects); `connectorRow length
start` is the workplane returned by `distribute_connectors(length, start)`;
`union`/`cut` are the `+`/`-` booleans; `translate v` and
`rotate c ax ang` are the rigid motions of the fluent API. -/
inductive Shape where
  | sketch : String → Shape
  | connectorRow : ℚ → ℤ → Shape
  | union : Shape → Shape → Shape
  | cut : Shape → Shape → Shape
  | translate : Point → Shape → Shape
  | rotate : Point → Point → ℚ → Shape → Shape

/-- The points of a `Prism` sketched on a workplane: `x` and `y` range over
the centred rectangle, `z` over the extrusion depth. -/
def prismPts (p : Prism) : Set Point :=
  {q | p.cx - p.w / 2 ≤ q.1 ∧ q.1 ≤ p.cx + p.w / 2 ∧
       p.cy - p.h / 2 ≤ q.2.1 ∧ q.2.1 ≤ p.cy + p.h / 2 ∧
       0 ≤ q.2.2 ∧ q.2.2 ≤ p.d}

/-- Interpretation environment for the CAD kernel: a point set for every
named sketch primitive and a point map for every axis rotation.  The claims
we settle on `Shape` hold for every environment, so nothing about the
kernel's actual polygon or rotation geometry is assumed. -/
structure GeomEnv where
  sketchSem : String → Set Point
  rotSem : Point → Point → ℚ → Point → Point

/-- Set-of-points semantics of a CAD expression: unions are set unions,
cuts are set differences, `translate v` is the image under `· + v`, and
rotations are images under the environment's rotation maps. -/
def Shape.sem (env : GeomEnv) : Shape → Set Point
  | .sketch n => env.sketchSem n
  | .connectorRow len st => ⋃ p ∈ distribute_connectors len st, prismPts p
  | .union a b => a.sem env ∪ b.sem env
  | .cut a b => a.sem env \ b.sem env
  | .translate v s => (fun q => q + v) '' s.sem env
  | .rotate c ax ang s => env.rotSem c ax ang '' s.sem env

/-- The front plate profile sketch of birdhouse.py lines 52-66 (entrance
polygon with two circular holes, extruded by `WALLTHICKNESS`). -/
def front_plate_profile : Shape := .sketch "front_plate_profile"

/-- birdhouse.py lines 69-71: `distribute_connectors(FRONT_PLATE_HEIGHT_SIDE)`
(default `start=1`) rotated by 90° about the x axis. -/
def front_plate_connectors (c : MissingConsts) : Shape :=
  .rotate (0, 0, 0) (1, 0, 0) 90 (.connectorRow c.FRONT_PLATE_HEIGHT_SIDE 1)

/-- The front plate after its two connector unions (lines 72-75) and its
translation to assembly position (lines 76-78). -/
def front_plate (c : MissingConsts) : Shape :=
  .translate (WALLTHICKNESS, WALLTHICKNESS, BIRDHOUSE_SPACE_BOTTOM)
    (.union
      (.union front_plate_profile (front_plate_connectors c))
      (.translate (c.BIRDHOUSE_WIDTH_INNER, 0, 0) (front_plate_connectors c)))

/-- The back plate rectangle sketch of birdhouse.py lines 82-90. -/
def back_plate_profile : Shape := .sketch "back_plate_profile"

/-- birdhouse.py lines 92-94: connectors for the back plate, same row as the
front plate's. -/
def back_plate_connectors (c : MissingConsts) : Shape :=
  .rotate (0, 0, 0) (1, 0, 0) 90 (.connectorRow c.FRONT_PLATE_HEIGHT_SIDE 1)

/-- The back plate after its connector unions (lines 95-96) and its
translation (line 97). -/
def back_plate (c : MissingConsts) : Shape :=
  .translate (WALLTHICKNESS, BIRDHOUSE_DEPTH, 0)
    (.union
      (.union back_plate_profile (back_plate_connectors c))
      (.translate (c.BIRDHOUSE_WIDTH_INNER, 0, 0) (back_plate_connectors c)))

/-- The side plate rectangle sketch of birdhouse.py lines 100-107. -/
def side_plate_profile : Shape := .sketch "side_plate_profile"

/-- The bottom slide rectangle sketch of birdhouse.py lines 111-115. -/
def bottom_slide_profile : Shape := .sketch "bottom_slide_profile"

/-- The bottom slide with its connector unions (lines 118-122). -/
def bottom_slide_flat (c : MissingConsts) : Shape :=
  .union
    (.union bottom_slide_profile (.connectorRow c.SLIDE_LENGTH_BOTTOM 0))
    (.translate (c.BIRDHOUSE_WIDTH_INNER, 0, 0)
      (.connectorRow c.SLIDE_LENGTH_BOTTOM 0))

/-- The bottom slide after its rotation and translation to final position
(birdhouse.py lines 127-131). -/
def bottom_slide (c : MissingConsts) : Shape :=
  .translate (WALLTHICKNESS, 0, 0)
    (.rotate (0, 0, 0) (1, 0, 0) c.SLIDE_ANGLE (bottom_slide_flat c))

/-- The mid slide rectangle sketch of birdhouse.py lines 135-139. -/
def mid_slide_profile : Shape := .sketch "mid_slide_profile"

/-- The mid slide with its connector unions (lines 142-144, `start=1`). -/
def mid_slide_flat (c : MissingConsts) : Shape :=
  .union
    (.union mid_slide_profile (.connectorRow c.SLIDE_LENGTH_MID 1))
    (.translate (c.BIRDHOUSE_WIDTH_INNER, 0, 0)
      (.connectorRow c.SLIDE_LENGTH_MID 1))

/-- The mid slide after its rotation and translation to final position
(birdhouse.py lines 149-153, `BACK_PLATE_HEIGHT * 0.7`). -/
def mid_slide (c : MissingConsts) : Shape :=
  .translate (WALLTHICKNESS, WALLTHICKNESS, c.BACK_PLATE_HEIGHT * (7 / 10))
    (.rotate (0, 0, 0) (1, 0, 0) (-c.SLIDE_ANGLE) (mid_slide_flat c))

/-- The top slide rectangle sketch of birdhouse.py lines 157-161. -/
def top_slide_profile : Shape := .sketch "top_slide_profile"

/-- The top slide with its connector unions (lines 164-166, `start=0`). -/
def top_slide_flat (c : MissingConsts) : Shape :=
  .union
    (.union top_slide_profile (.connectorRow c.SLIDE_LENGTH_TOP 0))
    (.translate (c.BIRDHOUSE_WIDTH_INNER, 0, 0)
      (.connectorRow c.SLIDE_LENGTH_TOP 0))

/-- The top slide after its pre-translation, rotation and translation to
final position (birdhouse.py lines 171-185). -/
def top_slide (c : MissingConsts) : Shape :=
  .translate
    (WALLTHICKNESS, BIRDHOUSE_DEPTH - WALLTHICKNESS,
      c.BACK_PLATE_HEIGHT - WALLTHICKNESS)
    (.rotate (0, 0, 0) (1, 0, 0) c.SLIDE_ANGLE
      (.translate (0, -c.SLIDE_LENGTH_TOP, 0) (top_slide_flat c)))

/-- The left side plate after its five boolean subtractions
(birdhouse.py lines 189-193). -/
def side_plate (c : MissingConsts) : Shape :=
  .cut
    (.cut
      (.cut
        (.cut
          (.cut side_plate_profile (front_plate c))
          (back_plate c))
        (bottom_slide c))
      (mid_slide c))
    (top_slide c)

/-- The translation vector of birdhouse.py line 194:
`(BIRDHOUSE_WIDTH - WALLTHICKNESS, 0, 0)`. -/
def sidePlateShift : Point := (BIRDHOUSE_WIDTH - WALLTHICKNESS, 0, 0)

/-- The right side plate, birdhouse.py line 194:
`side_plate.translate((BIRDHOUSE_WIDTH - WALLTHICKNESS, 0, 0))`. -/
def side_plate2 (c : MissingConsts) : Shape :=
  .translate sidePlateShift (side_plate c)

/-! ### birdhouse.py: the script's effect and statement order

The script is linear; we record, statement by statement and in source
order, the events relevant to the ordering and output claims: variable
builds, boolean combinations, rigid motions applied to a panel variable
(`panel = panel.rotate(...)` / `...translate(...)` statements), DXF export
calls, and viewer calls. -/

/-- One event of the script run.  `exportEvt panel path` is an
`exporters.export(panel, path)` call; `rotateEvt`/`translateEvt panel` is a
rigid motion applied to that panel variable by an assembly-positioning
statement; `assignEvt`/`unionEvt`/`cutEvt` are the builds and booleans;
`showEvt` is a `show_object` viewer call. -/
inductive Event where
  | assignEvt : String → Event
  | unionEvt : String → Event
  | cutEvt : String → Event
  | rotateEvt : String → Event
  | translateEvt : String → Event
  | exportEvt : String → String → Event
  | showEvt : String → Event
deriving DecidableEq, Repr

/-- The statement-by-statement event trace of birdhouse.py lines 52-251, in
source order.  The `roof_right` export (line 229) passes an inline
translated-and-rotated copy to `exporters.export`; that inline motion is
part of the export expression, not a reassignment of the panel, so the
trace records it as the export event alone. -/
def scriptTrace : List Event :=
  [.assignEvt "front_plate",                                          -- 52
   .assignEvt "front_plate_connectors",                               -- 69
   .unionEvt "front_plate",                                           -- 72
   .unionEvt "front_plate",                                           -- 73
   .translateEvt "front_plate",                                       -- 76
   .assignEvt "back_plate",                                           -- 82
   .assignEvt "back_plate_connectors",                                -- 92
   .unionEvt "back_plate",                                            -- 95
   .unionEvt "back_plate",                                            -- 96
   .translateEvt "back_plate",                                        -- 97
   .assignEvt "side_plate",                                           -- 100
   .assignEvt "bottom_slide",                                         -- 111
   .assignEvt "bottom_slide_connectors",                              -- 118
   .unionEvt "bottom_slide",                                          -- 119
   .unionEvt "bottom_slide",                                          -- 120
   .exportEvt "bottom_slide" "construction_files/bottom_slide.dxf",   -- 124
   .rotateEvt "bottom_slide",                                         -- 127
   .translateEvt "bottom_slide",                                      -- 131
   .assignEvt "mid_slide",                                            -- 135
   .assignEvt "mid_slide_connectors",                                 -- 142
   .unionEvt "mid_slide",                                             -- 143
   .unionEvt "mid_slide",                                             -- 144
   .exportEvt "mid_slide" "construction_files/mid_slide.dxf",         -- 146
   .rotateEvt "mid_slide",                                            -- 149
   .translateEvt "mid_slide",                                         -- 153
   .assignEvt "top_slide",                                            -- 157
   .assignEvt "top_slide_connectors",                                 -- 164
   .unionEvt "top_slide",                                             -- 165
   .unionEvt "top_slide",                                             -- 166
   .exportEvt "top_slide" "construction_files/top_slide.dxf",         -- 168
   .translateEvt "top_slide",                                         -- 172
   .rotateEvt "top_slide",                                            -- 173
   .translateEvt "top_slide",                                         -- 178
   .cutEvt "side_plate",                                              -- 189
   .cutEvt "side_plate",                                              -- 190
   .cutEvt "side_plate",                                              -- 191
   .cutEvt "side_plate",                                              -- 192
   .cutEvt "side_plate",                                              -- 193
   .assignEvt "side_plate2",                                          -- 194
   .assignEvt "roof_left",                                            -- 198
   .assignEvt "roof_left_connectors",                                 -- 204
   .unionEvt "roof_left",                                             -- 207
   .exportEvt "roof_left" "construction_files/roof_left.dxf",         -- 208
   .rotateEvt "roof_left",                                            -- 211
   .translateEvt "roof_left",                                         -- 211
   .assignEvt "roof_right",                                           -- 216
   .rotateEvt "roof_right",                                           -- 224
   .translateEvt "roof_right",                                        -- 224
   .cutEvt "roof_right",                                              -- 227
   .exportEvt "roof_right" "construction_files/roof_right.dxf",       -- 229
   .exportEvt "front_plate" "construction_files/front_plate.dxf",     -- 237
   .exportEvt "side_plate" "construction_files/side_plate.dxf",       -- 238
   .exportEvt "back_plate" "construction_files/back_plate.dxf",       -- 239
   .showEvt "front_plate",                                            -- 243
   .showEvt "back_plate",                                             -- 244
   .showEvt "side_plate",                                             -- 245
   .showEvt "side_plate2",                                            -- 246
   .showEvt "bottom_slide",                                           -- 247
   .showEvt "mid_slide",                                              -- 248
   .showEvt "top_slide",                                              -- 249
   .showEvt "roof_left",                                              -- 250
   .showEvt "roof_right"]                                             -- 251

/-- Does an event export the given panel? -/
def exportsPanel : Event → String → Bool
  | .exportEvt p _, q => p == q
  | _, _ => false

/-- Does an event apply a rigid motion (rotate or translate) to the given
panel variable? -/
def transformsPanel : Event → String → Bool
  | .rotateEvt p, q => p == q
  | .translateEvt p, q => p == q
  | _, _ => false

/-- The DXF paths of a trace's export calls, in order. -/
def exportPathsOf (tr : List Event) : List String :=
  tr.filterMap fun e =>
    match e with
    | .exportEvt _ path => some path
    | _ => none

/-- Positions in the trace at which an event satisfies the predicate. -/
def idxsWhere (tr : List Event) (p : Event → Bool) : List ℕ :=
  tr.enum.filterMap fun ie => if p ie.2 then some ie.1 else none

/-- Positions of the export events of a panel. -/
def exportIdxs (tr : List Event) (panel : String) : List ℕ :=
  idxsWhere tr (fun e => exportsPanel e panel)

/-- Positions of the rigid-motion events of a panel. -/
def transformIdxs (tr : List Event) (panel : String) : List ℕ :=
  idxsWhere tr (fun e => transformsPanel e panel)

/-- Every position of the first list is strictly before every position of
the second. -/
def allBefore (xs ys : List ℕ) : Bool :=
  xs.all fun x => ys.all fun y => decide (x < y)

/-- The ordering discipline claimed by the spec's pipeline sentence: every
export of a panel comes after every rigid motion of that panel. -/
def exportsAfterTransforms (tr : List Event) : Prop :=
  ∀ (panel : String) (i j : ℕ) (hi : i < tr.length) (hj : j < tr.length),
    exportsPanel (tr.get ⟨i, hi⟩) panel = true →
    transformsPanel (tr.get ⟨j, hj⟩) panel = true → j < i

/-! ### Helper lemmas -/

/-- Python truncation agrees with the floor on non-negative arguments. -/
theorem pyTrunc_of_nonneg {q : ℚ} (h : 0 ≤ q) : pyTrunc q = ⌊q⌋ := by
  simp [pyTrunc, h.not_lt]

/-- Python truncation of a non-positive argument is non-positive. -/
theorem pyTrunc_nonpos {q : ℚ} (h : q ≤ 0) : pyTrunc q ≤ 0 := by
  unfold pyTrunc
  split
  · next hq =>
    simp only [neg_nonpos]
    exact Int.floor_nonneg.mpr (by linarith)
  · next hq =>
    have h0 : q = 0 := le_antisymm h (not_lt.mp hq)
    simp [h0]

/-- The trailing emptiness test of `distribute_connectors` never changes the
result: the function always returns the mapped range of the count. -/
theorem distribute_connectors_eq (length : ℚ) (start : ℤ) :
    distribute_connectors length start =
      (List.range (pyTrunc (length / (WALLTHICKNESS * 2))).toNat).map
        (fun (i : ℕ) => connectorPiece
          (WALLTHICKNESS * (((i : ℤ) * 2 + start : ℤ) : ℚ)
            + WALLTHICKNESS / 2)) := by
  unfold distribute_connectors
  dsimp only
  split
  · next h => exact (List.isEmpty_eq_true.mp h).symm
  · rfl

/-- The number of connector solids is the clamped truncated quotient. -/
theorem distribute_connectors_length (length : ℚ) (start : ℤ) :
    (distribute_connectors length start).length =
      (pyTrunc (length / (WALLTHICKNESS * 2))).toNat := by
  rw [distribute_connectors_eq]
  simp

/-- Concrete evaluation: at `length = 20`, `start = 1` the function
produces two solids centred at `y = 6` and `y = 14`. -/
theorem distribute_connectors_20_1 :
    distribute_connectors 20 1 = [⟨0, 6, 8, 4, 4⟩, ⟨0, 14, 8, 4, 4⟩] := by
  have hc : pyTrunc ((20 : ℚ) / (WALLTHICKNESS * 2)) = 2 := by
    rw [pyTrunc_of_nonneg (by norm_num [WALLTHICKNESS])]
    norm_num [WALLTHICKNESS]
  rw [distribute_connectors_eq, hc]
  have hr : List.range (2 : ℤ).toNat = [0, 1] := rfl
  rw [hr]
  simp only [List.map_cons, List.map_nil, connectorPiece, connectorPieceGen,
    Prism.mk.injEq]
  norm_num [WALLTHICKNESS]

/-- The set semantics of a boolean cut is the set difference (definitional,
stated for rewriting). -/
theorem sem_cut (env : GeomEnv) (a b : Shape) :
    Shape.sem env (.cut a b) = Shape.sem env a \ Shape.sem env b := rfl

/-- A translation distributes over a boolean cut: cutting then translating
equals translating both operands and cutting. -/
theorem sem_translate_cut (env : GeomEnv) (v : Point) (a b : Shape) :
    Shape.sem env (.translate v (.cut a b)) =
      Shape.sem env (.cut (.translate v a) (.translate v b)) :=
  Set.image_diff (fun _ _ h => add_right_cancel h) _ _

/-! ### Claim theorems -/

/-- Claim C1 (code bug): the claim asserts that every name that
birdhouse.py pulls from the constants module is defined in constants.py,
so that module initialization gets past the imports.  In fact ten of the
fourteen requested names are missing from constants.py, so the
`from constants import (...)` statement raises `ImportError` and module
initialization of birdhouse.py never gets past its imports: the
import-failure branch is reached on every run. -/
theorem birdhouse_import_missing_names :
    birdhouseImportedNames.filter
        (fun n => !(constantsDefinedNames.contains n)) =
      ["BIRDHOUSE_WIDTH_INNER", "SLIDE_LENGTH_MID", "SLIDE_LENGTH_TOP",
       "SLIDE_LENGTH_BOTTOM", "SLIDE_ANGLE", "FRONT_PLATE_HEIGHT_SIDE",
       "FRONT_PLATE_HEIGHT_MIDDLE", "BACK_PLATE_HEIGHT",
       "SIDE_PLATE_HEIGHT", "ROOF_LENGTH"] ∧
    ¬ (∀ n ∈ birdhouseImportedNames, n ∈ constantsDefinedNames) := by
  constructor
  · rfl
  · decide

/-- Claim C2, counterexample: at `length = -1` the function produces zero
solids while `floor(length / (2 * WALLTHICKNESS)) = -1`, so the solid count
is not the floor of the quotient for every length. -/
theorem connector_count_not_floor :
    ((distribute_connectors (-1) 1).length : ℤ) ≠
      ⌊(-1 : ℚ) / (2 * WALLTHICKNESS)⌋ := by
  rw [distribute_connectors_length]
  norm_num [pyTrunc, WALLTHICKNESS]

/-- Claim C2 (amended): for every non-negative length,
`distribute_connectors length start` produces exactly
`floor(length / (2 * WALLTHICKNESS))` solids; for negative lengths it
produces zero solids (Python's `int()` truncates toward zero and `range`
of a non-positive count is empty); and the solid count depends only on
the length, never on `start`. -/
theorem connector_count (length : ℚ) (s t : ℤ) :
    (0 ≤ length →
      ((distribute_connectors length s).length : ℤ) =
        ⌊length / (2 * WALLTHICKNESS)⌋) ∧
    (length < 0 → (distribute_connectors length s).length = 0) ∧
    (distribute_connectors length s).length =
      (distribute_connectors length t).length := by
  refine ⟨fun h => ?_, fun h => ?_, ?_⟩
  · have hq : (0 : ℚ) ≤ length / (WALLTHICKNESS * 2) :=
      div_nonneg h (by norm_num [WALLTHICKNESS])
    rw [distribute_connectors_length, pyTrunc_of_nonneg hq,
      Int.toNat_of_nonneg (Int.floor_nonneg.mpr hq), mul_comm WALLTHICKNESS 2]
  · have hq : length / (WALLTHICKNESS * 2) ≤ 0 :=
      div_nonpos_of_nonpos_of_nonneg h.le (by norm_num [WALLTHICKNESS])
    rw [distribute_connectors_length]
    exact Int.toNat_eq_zero.mpr (pyTrunc_nonpos hq)
  · rw [distribute_connectors_length, distribute_connectors_length]

/-- Witness for the amended claim C2 at the concrete inputs `length = 20`
(two solids, `floor(20/8) = 2`) and `length = -1` (zero solids). -/
theorem connector_count_witness :
    ((0 : ℚ) ≤ 20 ∧
      ((distribute_connectors 20 0).length : ℤ) =
        ⌊(20 : ℚ) / (2 * WALLTHICKNESS)⌋) ∧
    ((-1 : ℚ) < 0 ∧ (distribute_connectors (-1) 1).length = 0) :=
  ⟨⟨by norm_num, (connector_count 20 0 1).1 (by norm_num)⟩,
   ⟨by norm_num, (connector_count (-1) 1 0).2.1 (by norm_num)⟩⟩

/-- Claim C3 (confirmed): whenever a connector exists at position `i`, its
centre along the placement axis is
`WALLTHICKNESS * start + WALLTHICKNESS / 2 + i * (2 * WALLTHICKNESS)`:
the centres form an arithmetic sequence with first term
`WALLTHICKNESS * start + WALLTHICKNESS / 2` and common difference
`2 * WALLTHICKNESS`. -/
theorem connector_centers (length : ℚ) (start : ℤ) (i : ℕ)
    (h : i < (distribute_connectors length start).length) :
    ((distribute_connectors length start).get ⟨i, h⟩).cy =
      WALLTHICKNESS * (start : ℚ) + WALLTHICKNESS / 2 +
        (i : ℚ) * (2 * WALLTHICKNESS) := by
  simp only [List.get_eq_getElem, distribute_connectors_eq,
    List.getElem_map, List.getElem_range, connectorPiece, connectorPieceGen]
  push_cast
  ring

/-- Witness for claim C3 at `length = 20`, `start = 1`, index `i = 1`:
the second connector centre is `4 * 1 + 2 + 1 * 8 = 14`. -/
theorem connector_centers_witness :
    1 < (distribute_connectors 20 1).length ∧
    ((distribute_connectors 20 1).get
        ⟨1, by rw [distribute_connectors_20_1]; norm_num⟩).cy =
      WALLTHICKNESS * ((1 : ℤ) : ℚ) + WALLTHICKNESS / 2 +
        ((1 : ℕ) : ℚ) * (2 * WALLTHICKNESS) :=
  ⟨by rw [distribute_connectors_20_1]; norm_num,
   connector_centers 20 1 1 (by rw [distribute_connectors_20_1]; norm_num)⟩

/-- Claim C4 (confirmed): every solid produced by `distribute_connectors`,
for any length and start, has sketch width `2 * WALLTHICKNESS`, sketch
height `WALLTHICKNESS` and extrusion depth `WALLTHICKNESS`, and equals the
canonical connector prism shifted along the placement axis — so all
connectors are congruent. -/
theorem connector_dims (length : ℚ) (start : ℤ) (p : Prism)
    (hp : p ∈ distribute_connectors length start) :
    p.w = 2 * WALLTHICKNESS ∧ p.h = WALLTHICKNESS ∧ p.d = WALLTHICKNESS ∧
      p = Prism.shiftY (connectorPiece 0) p.cy := by
  rw [distribute_connectors_eq] at hp
  simp only [List.mem_map, List.mem_range] at hp
  obtain ⟨i, -, rfl⟩ := hp
  refine ⟨mul_comm _ _, rfl, rfl, ?_⟩
  simp [connectorPiece, connectorPieceGen, Prism.shiftY]

/-- Witness for claim C4: the concrete solid centred at `y = 6` belongs to
`distribute_connectors 20 1` and has the claimed dimensions. -/
theorem connector_dims_witness :
    (⟨0, 6, 8, 4, 4⟩ : Prism) ∈ distribute_connectors 20 1 ∧
    ((⟨0, 6, 8, 4, 4⟩ : Prism).w = 2 * WALLTHICKNESS ∧
      (⟨0, 6, 8, 4, 4⟩ : Prism).h = WALLTHICKNESS ∧
      (⟨0, 6, 8, 4, 4⟩ : Prism).d = WALLTHICKNESS ∧
      (⟨0, 6, 8, 4, 4⟩ : Prism) =
        Prism.shiftY (connectorPiece 0) (⟨0, 6, 8, 4, 4⟩ : Prism).cy) :=
  ⟨by rw [distribute_connectors_20_1]; exact List.mem_cons_self _ _,
   connector_dims 20 1 _
     (by rw [distribute_connectors_20_1]; exact List.mem_cons_self _ _)⟩

/-- Claim C5, counterexample: `length = -10` is strictly less than
`2 * WALLTHICKNESS`, yet the computed connector count
`int(length / (WALLTHICKNESS * 2))` is `-1`, not zero — the claim's
parenthetical assertion that every length below `2 * WALLTHICKNESS`
(including every non-positive length) has computed count zero is false. -/
theorem connector_count_negative_at_neg_ten :
    (-10 : ℚ) < 2 * WALLTHICKNESS ∧
      pyTrunc ((-10 : ℚ) / (WALLTHICKNESS * 2)) ≠ 0 := by
  constructor <;> norm_num [pyTrunc, WALLTHICKNESS]

/-- Claim C5 (amended): whenever the computed connector count
`int(length / (WALLTHICKNESS * 2))` is zero — which happens exactly for
`-2 * WALLTHICKNESS < length < 2 * WALLTHICKNESS`, not for all lengths
below `2 * WALLTHICKNESS` — the function returns the empty workplane; and
for every length strictly below `2 * WALLTHICKNESS` (where the count is
zero or negative, including every non-positive length) it likewise
returns the empty workplane rather than failing. -/
theorem connector_empty (length : ℚ) (start : ℤ) :
    (pyTrunc (length / (WALLTHICKNESS * 2)) = 0 →
      distribute_connectors length start = []) ∧
    (length < 2 * WALLTHICKNESS → distribute_connectors length start = []) := by
  constructor
  · intro h
    rw [distribute_connectors_eq, h]
    rfl
  · intro h
    have hcount : pyTrunc (length / (WALLTHICKNESS * 2)) ≤ 0 := by
      by_cases hl : length < 0
      · exact pyTrunc_nonpos
          (div_nonpos_of_nonpos_of_nonneg hl.le (by norm_num [WALLTHICKNESS]))
      · have h0 : (0 : ℚ) ≤ length := not_lt.mp hl
        have hq : (0 : ℚ) ≤ length / (WALLTHICKNESS * 2) :=
          div_nonneg h0 (by norm_num [WALLTHICKNESS])
        have hq1 : length / (WALLTHICKNESS * 2) < 1 := by
          rw [div_lt_one (by norm_num [WALLTHICKNESS])]
          linarith [mul_comm WALLTHICKNESS (2 : ℚ)]
        rw [pyTrunc_of_nonneg hq]
        exact le_of_eq (Int.floor_eq_zero_iff.mpr ⟨hq, hq1⟩)
    rw [distribute_connectors_eq, Int.toNat_eq_zero.mpr hcount]
    rfl

/-- Witness for the amended claim C5 at `length = 5` (count zero) and
`length = -10` (count negative): both return the empty workplane. -/
theorem connector_empty_witness :
    distribute_connectors 5 1 = [] ∧ distribute_connectors (-10) 1 = [] :=
  ⟨(connector_empty 5 1).1 (by norm_num [pyTrunc, WALLTHICKNESS]),
   (connector_empty (-10) 1).2 (by norm_num [WALLTHICKNESS])⟩

/-- Claim C6, counterexample: with wall thickness `0` the division
`length / (WALLTHICKNESS * 2)` raises `ZeroDivisionError` instead of
silently returning an empty workplane; and with wall thickness `-4` and
`length = -16` the function returns two degenerate connectors, not the
empty workplane. -/
theorem connector_gen_zero_wall_raises :
    distribute_connectors_gen 0 10 1 = Except.error "ZeroDivisionError" ∧
    distribute_connectors_gen (-4) (-16) 1 ≠ Except.ok [] := by
  constructor
  · simp [distribute_connectors_gen]
  · have hc : pyTrunc ((-16 : ℚ) / ((-4) * 2)) = 2 := by
      norm_num [pyTrunc]
    have h : distribute_connectors_gen (-4) (-16) 1 =
        Except.ok [connectorPieceGen (-4) (-6), connectorPieceGen (-4) (-14)] := by
      simp only [distribute_connectors_gen, hc]
      have hr : List.range (2 : ℤ).toNat = [0, 1] := rfl
      rw [hr]
      simp only [List.map_cons, List.map_nil, connectorPieceGen,
        Prism.mk.injEq]
      norm_num
    rw [h]
    simp

/-- Claim C6 (amended): with wall thickness zero every call raises
`ZeroDivisionError` (Python float division by zero); with negative wall
thickness and non-negative length the call raises no error and silently
returns the degenerate result of zero connectors (the empty workplane). -/
theorem connector_gen_nonpos_wall (W length : ℚ) (start : ℤ) :
    (W = 0 →
      distribute_connectors_gen W length start =
        Except.error "ZeroDivisionError") ∧
    (W < 0 → 0 ≤ length →
      distribute_connectors_gen W length start = Except.ok []) := by
  constructor
  · intro h
    simp [distribute_connectors_gen, h]
  · intro hW hl
    have h2 : W * 2 ≠ 0 := by
      intro h
      rcases mul_eq_zero.mp h with h' | h'
      · exact absurd h' hW.ne
      · norm_num at h'
    have hq : length / (W * 2) ≤ 0 :=
      div_nonpos_of_nonneg_of_nonpos hl (by linarith)
    have hc : (pyTrunc (length / (W * 2))).toNat = 0 :=
      Int.toNat_eq_zero.mpr (pyTrunc_nonpos hq)
    simp [distribute_connectors_gen, h2, hc]

/-- Witness for the amended claim C6 at wall thickness `0` (error) and at
wall thickness `-4` with `length = 10` (empty workplane). -/
theorem connector_gen_nonpos_wall_witness :
    distribute_connectors_gen 0 10 2 = Except.error "ZeroDivisionError" ∧
    distribute_connectors_gen (-4) 10 1 = Except.ok [] :=
  ⟨(connector_gen_nonpos_wall 0 10 2).1 rfl,
   (connector_gen_nonpos_wall (-4) 10 1).2 (by norm_num) (by norm_num)⟩

/-- Claim C9 (confirmed): for every length and all integer offsets `s` and
`t`, the pattern produced with offset `s` is exactly the pattern produced
with offset `t` with every solid shifted along the placement axis by
`(s - t) * WALLTHICKNESS`: same count, same shapes, rigidly shifted. -/
theorem connector_shift (length : ℚ) (s t : ℤ) :
    distribute_connectors length s =
      (distribute_connectors length t).map
        (fun p => Prism.shiftY p (((s - t : ℤ) : ℚ) * WALLTHICKNESS)) := by
  rw [distribute_connectors_eq length s, distribute_connectors_eq length t,
    List.map_map]
  apply List.map_congr_left
  intro i _
  simp only [Function.comp_apply, connectorPiece, connectorPieceGen,
    Prism.shiftY, Prism.mk.injEq, true_and, and_true]
  push_cast
  ring

/-- Claim C7, counterexample: the claimed ordering discipline fails on the
script's own trace — `bottom_slide` is exported at position 15 while its
rotation to assembly position happens only at position 16, so not every
export call occurs after the panel's transform to final position. -/
theorem script_exports_not_after_transforms :
    ¬ exportsAfterTransforms scriptTrace := by
  intro h
  have h15 : (15 : ℕ) < scriptTrace.length := by decide
  have h16 : (16 : ℕ) < scriptTrace.length := by decide
  have := h "bottom_slide" 15 16 h15 h16 rfl rfl
  omega

/-- Claim C7 (amended): `front_plate`, `back_plate` and `roof_right` are
exported only after every rigid transform applied to them, but
`bottom_slide`, `mid_slide`, `top_slide` and `roof_left` are each exported
before any of their rotations/translations to assembly position (the flat
profile is exported for laser cutting and the panel is moved afterwards),
and `side_plate` is exported without ever being rotated or translated. -/
theorem script_export_transform_order :
    (allBefore (transformIdxs scriptTrace "front_plate")
        (exportIdxs scriptTrace "front_plate") = true ∧
      transformIdxs scriptTrace "front_plate" ≠ [] ∧
      exportIdxs scriptTrace "front_plate" ≠ []) ∧
    (allBefore (transformIdxs scriptTrace "back_plate")
        (exportIdxs scriptTrace "back_plate") = true ∧
      transformIdxs scriptTrace "back_plate" ≠ [] ∧
      exportIdxs scriptTrace "back_plate" ≠ []) ∧
    (allBefore (transformIdxs scriptTrace "roof_right")
        (exportIdxs scriptTrace "roof_right") = true ∧
      transformIdxs scriptTrace "roof_right" ≠ [] ∧
      exportIdxs scriptTrace "roof_right" ≠ []) ∧
    (allBefore (exportIdxs scriptTrace "bottom_slide")
        (transformIdxs scriptTrace "bottom_slide") = true ∧
      transformIdxs scriptTrace "bottom_slide" ≠ [] ∧
      exportIdxs scriptTrace "bottom_slide" ≠ []) ∧
    (allBefore (exportIdxs scriptTrace "mid_slide")
        (transformIdxs scriptTrace "mid_slide") = true ∧
      transformIdxs scriptTrace "mid_slide" ≠ [] ∧
      exportIdxs scriptTrace "mid_slide" ≠ []) ∧
    (allBefore (exportIdxs scriptTrace "top_slide")
        (transformIdxs scriptTrace "top_slide") = true ∧
      transformIdxs scriptTrace "top_slide" ≠ [] ∧
      exportIdxs scriptTrace "top_slide" ≠ []) ∧
    (allBefore (exportIdxs scriptTrace "roof_left")
        (transformIdxs scriptTrace "roof_left") = true ∧
      transformIdxs scriptTrace "roof_left" ≠ [] ∧
      exportIdxs scriptTrace "roof_left" ≠ []) ∧
    (transformIdxs scriptTrace "side_plate" = [] ∧
      exportIdxs scriptTrace "side_plate" ≠ []) := by
  decide

/-- Claim C8 (confirmed): a complete run of the script performs exactly
eight DXF export calls, all into `construction_files/`, with exactly the
eight claimed file names — no more, no fewer, and no other paths. -/
theorem script_export_paths :
    exportPathsOf scriptTrace =
      ["construction_files/bottom_slide.dxf",
       "construction_files/mid_slide.dxf",
       "construction_files/top_slide.dxf",
       "construction_files/roof_left.dxf",
       "construction_files/roof_right.dxf",
       "construction_files/front_plate.dxf",
       "construction_files/side_plate.dxf",
       "construction_files/back_plate.dxf"] ∧
    (exportPathsOf scriptTrace).length = 8 := by
  constructor
  · rfl
  · rfl

/-- Claim C10 (confirmed): for every interpretation of the CAD kernel and
every value of the constants missing from constants.py, the right side
plate is exactly the left side plate (after all five boolean subtractions)
translated by `(BIRDHOUSE_WIDTH - WALLTHICKNESS, 0, 0)`; the two plates
correspond point for point under that rigid translation (so they are
congruent), and the translated plate is equally the translated blank cut
by the translated copies of the five cutting solids — every cutout of
`side_plate` appears identically in `side_plate2`. -/
theorem side_plate2_is_translated_side_plate (env : GeomEnv)
    (c : MissingConsts) :
    Shape.sem env (side_plate2 c) =
      (fun q => q + sidePlateShift) '' Shape.sem env (side_plate c) ∧
    (∀ q : Point, q ∈ Shape.sem env (side_plate c) ↔
      q + sidePlateShift ∈ Shape.sem env (side_plate2 c)) ∧
    Shape.sem env (side_plate2 c) =
      Shape.sem env
        (.cut
          (.cut
            (.cut
              (.cut
                (.cut (.translate sidePlateShift side_plate_profile)
                  (.translate sidePlateShift (front_plate c)))
                (.translate sidePlateShift (back_plate c)))
              (.translate sidePlateShift (bottom_slide c)))
            (.translate sidePlateShift (mid_slide c)))
          (.translate sidePlateShift (top_slide c))) := by
  refine ⟨rfl, fun q => ⟨fun h => Set.mem_image_of_mem _ h, fun h => ?_⟩, ?_⟩
  · obtain ⟨q', hq', he⟩ := h
    exact (add_right_cancel he) ▸ hq'
  · simp only [side_plate2, side_plate, sem_translate_cut, sem_cut]

end Birdhouse
